import Mathlib

/-!
Shallow embedding of `src/main.py` of the minizinc-mcp repository: the data
model (`ConstraintModel`, `Solution`, `SolveResult`, lines 8-28) and the
solver core `solve_constraint_core` (lines 38-127).

The external MiniZinc engine (`minizinc.Solver.lookup`, `minizinc.Model` /
`add_string` / `minizinc.Instance` construction, `instance[key] = value`
binding, `instance.solve_async`) is not part of the repository; it is
modelled as an opaque environment `Env` of fallible operations.  A Python
exception is modelled as `Except.error msg` where `msg` stands for
`str(e)`.  Python `float` values that cross the interface (`solve_time`,
objective values) are modelled as `Rat`; Python dictionaries as
association lists.  The `async` suspension plays no role in the values
computed and is dropped.
-/

/-- A JSON-like value: a data parameter or a solution variable binding
(`Any` in the source's `Dict[str, Any]` annotations). -/
inductive Value where
  | vint (n : Int)
  | vbool (b : Bool)
  | vstr (s : String)
  deriving DecidableEq

/-- `ConstraintModel` (src/main.py lines 8-14): the request.  `data` models
`Optional[Dict[str, Any]]` as an optional association list; `timeout` models
`Optional[int]` (seconds). -/
structure ConstraintModel where
  model : String
  data : Option (List (String × Value)) := none
  solver : String := "gecode"
  all_solutions : Bool := false
  timeout : Option Int := none
  deriving DecidableEq

/-- `Solution` (src/main.py lines 16-20).  The source field `variables` is
named `vars` here because `variables` is a reserved word in Lean. -/
structure Solution where
  vars : List (String × Value)
  objective : Option Rat := none
  is_optimal : Bool := false
  deriving DecidableEq

/-- `SolveResult` (src/main.py lines 22-28). -/
structure SolveResult where
  solutions : List Solution
  status : String
  solve_time : Rat
  num_solutions : Nat
  error : Option String := none
  deriving DecidableEq

/-- `minizinc.Status`: the engine's status enumeration.  python-minizinc
defines exactly these seven members (`minizinc/result.py`); note that the
engine's own vocabulary contains `ERROR` and `UNBOUNDED`, which lie outside
the canonical set used by the repository's result schema. -/
inductive Status where
  | ERROR
  | UNKNOWN
  | UNBOUNDED
  | UNSATISFIABLE
  | SATISFIED
  | ALL_SOLUTIONS
  | OPTIMAL_SOLUTION
  deriving DecidableEq

/-- `str(result.status)` (src/main.py line 114): a `minizinc.Status` value
prints as its member name. -/
def statusStr : Status → String
  | .ERROR => "ERROR"
  | .UNKNOWN => "UNKNOWN"
  | .UNBOUNDED => "UNBOUNDED"
  | .UNSATISFIABLE => "UNSATISFIABLE"
  | .SATISFIED => "SATISFIED"
  | .ALL_SOLUTIONS => "ALL_SOLUTIONS"
  | .OPTIMAL_SOLUTION => "OPTIMAL_SOLUTION"

/-- A value of the engine's statistics mapping (`result.statistics`, a
`Dict[str, Any]`): either a structured duration (`datetime.timedelta`,
carried as its `total_seconds()` value), an already-numeric value on which
Python `float()` succeeds, or a value on which `float()` raises. -/
inductive StatValue where
  | timedelta (total_seconds : Rat)
  | num (x : Rat)
  | nonNumeric (s : String)
  deriving DecidableEq

/-- One engine solution record (`sol` in the enumeration loop /
`result.solution` in the single-solution branches): its `__dict__` as an
association list, plus its `objective` attribute (`none` models
`hasattr(sol, 'objective')` being false). -/
structure SolRecord where
  fields : List (String × Value)
  objective : Option Rat := none
  deriving DecidableEq

/-- The raw outcome of `instance.solve_async` (a python-minizinc `Result`):
its status; the `result.solution` record, where `none` models `None` (or any
other value without a `__dict__`, on which attribute access raises); the
records yielded by iterating the result in all-solutions mode (line 71);
the truthiness of the result object (line 69 tests `result`); the
result-level `objective` attribute (`none` models `hasattr(result,
'objective')` being false); and the statistics mapping. -/
structure RawResult where
  status : Status
  solution : Option SolRecord := none
  enumSols : List SolRecord := []
  truthy : Bool := false
  objective : Option Rat := none
  statistics : List (String × StatValue) := []
  deriving DecidableEq

/-- The arguments of the `instance.solve_async` call (lines 57-63): the
enumeration flag and the optional `time_limit` argument, recorded as the
seconds of the `datetime.timedelta` passed. -/
structure SolveCall where
  all_solutions : Bool
  time_limit : Option Int
  deriving DecidableEq

/-- Python truthiness of the `Optional[int]` field `problem.timeout`, as
tested by `if problem.timeout:` on line 57: `None` and `0` are falsy, every
other integer (negative ones included) is truthy. -/
def truthyTimeout : Option Int → Bool
  | none => false
  | some t => t != 0

/-- Lines 57-63: which `solve_async` call is made.  When `problem.timeout`
is truthy the call carries `time_limit=datetime.timedelta(seconds=problem.timeout)`,
otherwise no time limit is passed at all. -/
def solveCallOf (p : ConstraintModel) : SolveCall :=
  if truthyTimeout p.timeout then
    { all_solutions := p.all_solutions, time_limit := p.timeout }
  else
    { all_solutions := p.all_solutions, time_limit := none }

/-- The external engine (out of scope of the repository, spec §1/§6): each
operation the core invokes may raise, modelled by `Except String` carrying
`str(e)`.  `lookup` is `minizinc.Solver.lookup` (line 42), `mkInstance` the
`minizinc.Model()` / `model.add_string` / `minizinc.Instance` construction
(lines 45-49), `bind` a single `instance[key] = value` assignment (line 54),
and `solve` the `instance.solve_async` call (lines 57-63). -/
structure Env where
  lookup : String → Except String Unit
  mkInstance : String → Except String Unit
  bind : String → Value → Except String Unit
  solve : SolveCall → Except String RawResult

/-- Lines 53-54: bind each data item in order; the first raised exception
aborts the loop and propagates. -/
def bindData (env : Env) : List (String × Value) → Except String Unit
  | [] => .ok ()
  | (k, v) :: rest =>
    match env.bind k v with
    | .error msg => .error msg
    | .ok _ => bindData env rest

/-- Line 52 tests `if problem.data:` — Python truthiness of
`Optional[Dict]`: `None` and the empty dict are falsy and skip the binding
loop entirely. -/
def bindAll (env : Env) (data : Option (List (String × Value))) : Except String Unit :=
  match data with
  | none => .ok ()
  | some l => if l.isEmpty then .ok () else bindData env l

/-- Python `key.startswith('_')` for the one-character prefix `'_'`: true
exactly when the key is non-empty and its first character is an
underscore.  (Stated on the character list so that it computes by
structural recursion.) -/
def startsWithUnderscore (s : String) : Bool :=
  match s.data with
  | [] => false
  | c :: _ => c == '_'

/-- Lines 72-75 / 83-86 / 93-96: copy every `__dict__` entry whose key does
not start with an underscore. -/
def publicFields (sol : SolRecord) : List (String × Value) :=
  sol.fields.filter (fun kv => !startsWithUnderscore kv.fst)

/-- The message of the `AttributeError` raised by `result.solution.__dict__`
on line 94 when `result.solution` is `None` (quotes of the Python message
elided). -/
def noneDictMsg : String := "NoneType object has no attribute __dict__"

/-- Lines 66-101: build the `solutions` list from the raw outcome.
Branches in source order: `SATISFIED`/`ALL_SOLUTIONS` with a truthy result
in enumeration mode iterates the result (each solution `is_optimal=False`);
otherwise a truthy `result.solution` yields a single solution whose
`is_optimal` re-tests `result.status == Status.OPTIMAL_SOLUTION`; the
`elif` on `OPTIMAL_SOLUTION` accesses `result.solution.__dict__`
unguarded, raising when the record is missing; any other status yields no
solutions. -/
def extractSolutions (all_solutions : Bool) (r : RawResult) :
    Except String (List Solution) :=
  if r.status = Status.SATISFIED ∨ r.status = Status.ALL_SOLUTIONS then
    if all_solutions && r.truthy then
      .ok (r.enumSols.map fun sol =>
        { vars := publicFields sol, objective := sol.objective,
          is_optimal := false })
    else
      match r.solution with
      | some sol =>
        .ok [{ vars := publicFields sol, objective := r.objective,
               is_optimal := decide (r.status = Status.OPTIMAL_SOLUTION) }]
      | none => .ok []
  else if r.status = Status.OPTIMAL_SOLUTION then
    match r.solution with
    | some sol =>
      .ok [{ vars := publicFields sol, objective := r.objective,
             is_optimal := true }]
    | none => .error noneDictMsg
  else
    .ok []

/-- Lines 107-110: convert one statistics value; `total_seconds()` for a
structured duration, otherwise Python `float()`, which raises on a
non-numeric value. -/
def floatOfStat : StatValue → Except String Rat
  | .timedelta s => .ok s
  | .num x => .ok x
  | .nonNumeric s => .error ("could not convert string to float: " ++ s)

/-- Lines 103-110: the statistics translation.  `solve_time_value` starts
at `0.0` and is overwritten only when the `solveTime` key is present. -/
def translateStats (stats : List (String × StatValue)) : Except String Rat :=
  match stats.lookup "solveTime" with
  | none => .ok 0
  | some v => floatOfStat v

/-- Lines 66-118: process a successful raw outcome into a `SolveResult`;
any exception raised by extraction or statistics translation propagates to
the handler. -/
def processOutcome (all_solutions : Bool) (r : RawResult) :
    Except String SolveResult :=
  match extractSolutions all_solutions r with
  | .error msg => .error msg
  | .ok sols =>
    match translateStats r.statistics with
    | .error msg => .error msg
    | .ok t =>
      .ok { solutions := sols, status := statusStr r.status, solve_time := t,
            num_solutions := sols.length, error := none }

/-- The `try` block of `solve_constraint_core` (lines 40-118): the steps in
source order, the first raised exception short-circuiting to the handler. -/
def tryBody (env : Env) (p : ConstraintModel) : Except String SolveResult :=
  match env.lookup p.solver with
  | .error msg => .error msg
  | .ok _ =>
    match env.mkInstance p.model with
    | .error msg => .error msg
    | .ok _ =>
      match bindAll env p.data with
      | .error msg => .error msg
      | .ok _ =>
        match env.solve (solveCallOf p) with
        | .error msg => .error msg
        | .ok r => processOutcome p.all_solutions r

/-- Lines 120-127: the `except Exception` arm (`solve_time=0` is the float
`0.0` after pydantic coercion). -/
def errorResult (msg : String) : SolveResult :=
  { solutions := [], status := "ERROR", solve_time := 0, num_solutions := 0,
    error := some msg }

/-- `solve_constraint_core` (lines 38-127), against an engine environment:
run the try block; on any raised exception return the uniform error
result. -/
def solve_constraint_core (env : Env) (p : ConstraintModel) : SolveResult :=
  match tryBody env p with
  | .ok res => res
  | .error msg => errorResult msg

/-! Concrete fixtures used by witnesses and counterexamples. -/

/-- An engine in which every pre-solve step succeeds and solving returns
the fixed raw outcome `r`. -/
def mkOkEnv (r : RawResult) : Env :=
  { lookup := fun _ => .ok (), mkInstance := fun _ => .ok (),
    bind := fun _ _ => .ok (), solve := fun _ => .ok r }

/-- An engine whose solver lookup raises. -/
def envLookupFail : Env :=
  { lookup := fun _ => .error "no solver with tag foo found",
    mkInstance := fun _ => .ok (), bind := fun _ _ => .ok (),
    solve := fun _ => .ok { status := Status.UNKNOWN } }

/-- The request of the repository's smoke test (tests/test_timeout.py),
without a timeout. -/
def pBase : ConstraintModel :=
  { model := "var 1..10: x; solve satisfy;", data := none, solver := "gecode",
    all_solutions := false, timeout := none }

/-- An enumeration-mode request (tests/test_timeout.py second test). -/
def pEnum : ConstraintModel :=
  { model := "var 1..10: x; solve satisfy;", data := none, solver := "gecode",
    all_solutions := true, timeout := some 2 }

/-- An outcome with a proven-optimal solution record. -/
def rOpt : RawResult :=
  { status := Status.OPTIMAL_SOLUTION,
    solution := some { fields := [("x", Value.vint 7), ("_checker", Value.vstr "")],
                       objective := some 7 },
    truthy := true, objective := some 7,
    statistics := [("solveTime", StatValue.timedelta 1)] }

/-- An outcome whose engine status is the engine's own `ERROR` member. -/
def rErrStatus : RawResult := { status := Status.ERROR }

/-- A `SATISFIED` outcome carrying no solution record. -/
def rSatEmpty : RawResult := { status := Status.SATISFIED }

/-- An `OPTIMAL_SOLUTION` outcome whose solution record is `None`. -/
def rOptNone : RawResult := { status := Status.OPTIMAL_SOLUTION, solution := none }

/-- A successful outcome reporting a negative solve duration. -/
def rNegTime : RawResult :=
  { status := Status.UNKNOWN, statistics := [("solveTime", StatValue.num (-1))] }

/-- An outcome with the engine status `UNBOUNDED`, which lies outside the
canonical set of the result schema. -/
def rUnb : RawResult := { status := Status.UNBOUNDED }

/-- An enumeration outcome with two solution records. -/
def rEnum : RawResult :=
  { status := Status.ALL_SOLUTIONS, truthy := true,
    enumSols := [{ fields := [("x", Value.vint 1)] },
                 { fields := [("x", Value.vint 2)] }],
    statistics := [("solveTime", StatValue.timedelta 2)] }

/-- A `SATISFIED` outcome whose statistics carry a structured duration. -/
def rStats : RawResult :=
  { status := Status.SATISFIED,
    solution := some { fields := [("x", Value.vint 1)] },
    statistics := [("solveTime", StatValue.timedelta 2)] }

/-- The first normalized solution of `rEnum`. -/
def sEnum1 : Solution :=
  { vars := [("x", Value.vint 1)], objective := none, is_optimal := false }

/-- The normalized result of `rUnb` under `pBase`. -/
def resUnb : SolveResult :=
  { solutions := [], status := "UNBOUNDED", solve_time := 0,
    num_solutions := 0, error := none }

/-- A statistics value is well-behaved when the duration it reports is
non-negative (vacuously true for values `float()` rejects). -/
def statNonneg : StatValue → Prop
  | .timedelta s => 0 ≤ s
  | .num x => 0 ≤ x
  | .nonNumeric _ => True

/-! Helper lemmas shared by several claims. -/

theorem tryBody_ok_inv (env : Env) (p : ConstraintModel) (res : SolveResult)
    (h : tryBody env p = .ok res) :
    ∃ r, env.solve (solveCallOf p) = .ok r ∧
      processOutcome p.all_solutions r = .ok res := by
  unfold tryBody at h
  split at h
  · exact Except.noConfusion h
  · split at h
    · exact Except.noConfusion h
    · split at h
      · exact Except.noConfusion h
      · split at h
        · exact Except.noConfusion h
        · rename_i r hr
          exact ⟨r, hr, h⟩

theorem core_of_tryBody_error (env : Env) (p : ConstraintModel) (msg : String)
    (h : tryBody env p = .error msg) :
    solve_constraint_core env p = errorResult msg := by
  unfold solve_constraint_core
  rw [h]

theorem core_of_tryBody_ok (env : Env) (p : ConstraintModel) (res : SolveResult)
    (h : tryBody env p = .ok res) :
    solve_constraint_core env p = res := by
  unfold solve_constraint_core
  rw [h]

theorem processOutcome_ok_inv (a : Bool) (r : RawResult) (res : SolveResult)
    (h : processOutcome a r = .ok res) :
    ∃ sols t, extractSolutions a r = .ok sols ∧
      translateStats r.statistics = .ok t ∧
      res = { solutions := sols, status := statusStr r.status, solve_time := t,
              num_solutions := sols.length, error := none } := by
  unfold processOutcome at h
  split at h
  · exact Except.noConfusion h
  · rename_i sols hs
    split at h
    · exact Except.noConfusion h
    · rename_i t ht
      refine ⟨sols, t, hs, ht, ?_⟩
      exact (Except.ok.inj h).symm

/-- Every run of the core ends in exactly one of the two terminal shapes:
the uniform error result, or a normalized result built from a successful
raw outcome. -/
theorem core_shape (env : Env) (p : ConstraintModel) :
    (∃ msg, solve_constraint_core env p = errorResult msg) ∨
    (∃ r sols t, env.solve (solveCallOf p) = .ok r ∧
      extractSolutions p.all_solutions r = .ok sols ∧
      translateStats r.statistics = .ok t ∧
      solve_constraint_core env p =
        { solutions := sols, status := statusStr r.status, solve_time := t,
          num_solutions := sols.length, error := none }) := by
  cases h : tryBody env p with
  | error msg => exact .inl ⟨msg, core_of_tryBody_error env p msg h⟩
  | ok res =>
    obtain ⟨r, hr, hp⟩ := tryBody_ok_inv env p res h
    obtain ⟨sols, t, hs, ht, hres⟩ := processOutcome_ok_inv _ _ _ hp
    exact .inr ⟨r, sols, t, hr, hs, ht, hres ▸ core_of_tryBody_ok env p res h⟩

theorem statusStr_eq_opt {s : Status} (h : statusStr s = "OPTIMAL_SOLUTION") :
    s = Status.OPTIMAL_SOLUTION := by
  cases s <;> first | rfl | exact absurd h (by decide)

theorem statusStr_eq_err {s : Status} (h : statusStr s = "ERROR") :
    s = Status.ERROR := by
  cases s <;> first | rfl | exact absurd h (by decide)

theorem extract_opt_inv (a : Bool) (r : RawResult) (sols : List Solution)
    (hst : r.status = Status.OPTIMAL_SOLUTION)
    (h : extractSolutions a r = .ok sols) :
    ∃ sol, r.solution = some sol ∧
      sols = [{ vars := publicFields sol, objective := r.objective,
                is_optimal := true }] := by
  unfold extractSolutions at h
  rw [hst] at h
  simp only [reduceCtorEq, or_self, if_false, if_pos rfl] at h
  cases hsol : r.solution with
  | none => rw [hsol] at h; exact Except.noConfusion h
  | some sol =>
    rw [hsol] at h
    exact ⟨sol, rfl, (Except.ok.inj h).symm⟩

theorem extract_not_opt_false (a : Bool) (r : RawResult) (sols : List Solution)
    (hst : r.status ≠ Status.OPTIMAL_SOLUTION)
    (h : extractSolutions a r = .ok sols) :
    ∀ s ∈ sols, s.is_optimal = false := by
  unfold extractSolutions at h
  by_cases hsat : r.status = Status.SATISFIED ∨ r.status = Status.ALL_SOLUTIONS
  · rw [if_pos hsat] at h
    by_cases henum : (a && r.truthy) = true
    · rw [if_pos henum] at h
      intro s hs
      rw [← Except.ok.inj h] at hs
      simp only [List.mem_map] at hs
      obtain ⟨sol, _, hsol⟩ := hs
      rw [← hsol]
    · rw [if_neg henum] at h
      cases hsol : r.solution with
      | none =>
        rw [hsol] at h
        rw [← Except.ok.inj h]
        intro s hs
        exact absurd hs (List.not_mem_nil s)
      | some sol =>
        rw [hsol] at h
        rw [← Except.ok.inj h]
        intro s hs
        rw [List.mem_singleton] at hs
        rw [hs]
        simp only [decide_eq_false hst]
  · rw [if_neg hsat, if_neg hst] at h
    rw [← Except.ok.inj h]
    intro s hs
    exact absurd hs (List.not_mem_nil s)

theorem extract_other_nil (a : Bool) (r : RawResult) (sols : List Solution)
    (h1 : r.status ≠ Status.SATISFIED) (h2 : r.status ≠ Status.ALL_SOLUTIONS)
    (h3 : r.status ≠ Status.OPTIMAL_SOLUTION)
    (h : extractSolutions a r = .ok sols) : sols = [] := by
  unfold extractSolutions at h
  rw [if_neg (by tauto), if_neg h3] at h
  exact (Except.ok.inj h).symm

/-- A result whose status is `"OPTIMAL_SOLUTION"` holds exactly one
solution, and it is marked optimal (shared by two claims). -/
theorem core_opt_inv (env : Env) (p : ConstraintModel)
    (h : (solve_constraint_core env p).status = "OPTIMAL_SOLUTION") :
    ∃ s, (solve_constraint_core env p).solutions = [s] ∧
      s.is_optimal = true := by
  rcases core_shape env p with ⟨msg, hc⟩ | ⟨r, sols, t, hr, hs, ht, hc⟩
  · rw [hc] at h
    simp only [errorResult] at h
    exact absurd h (by decide)
  · rw [hc] at h ⊢
    have hst : r.status = Status.OPTIMAL_SOLUTION := statusStr_eq_opt h
    obtain ⟨sol, _, hsols⟩ := extract_opt_inv p.all_solutions r sols hst hs
    exact ⟨_, by rw [hsols], rfl⟩

/-! The claims. -/

/-- C1: whatever exception is raised inside the try block — during solver
lookup, model/instance construction, data binding, engine execution, or
the processing of the outcome (solution extraction and statistics
translation) — `solve_constraint_core` returns, rather than propagates, a
`SolveResult` with `solutions=[]`, `status="ERROR"`, `solve_time=0.0`,
`num_solutions=0` and `error` set to the failure's message; being a total
function, the core lets no failure escape. -/
theorem C1_error_boundary (env : Env) (p : ConstraintModel) (msg : String) :
    (tryBody env p = .error msg →
      solve_constraint_core env p =
        { solutions := [], status := "ERROR", solve_time := 0,
          num_solutions := 0, error := some msg })
    ∧ (env.lookup p.solver = .error msg → tryBody env p = .error msg)
    ∧ (env.lookup p.solver = .ok () →
        env.mkInstance p.model = .error msg → tryBody env p = .error msg)
    ∧ (env.lookup p.solver = .ok () → env.mkInstance p.model = .ok () →
        bindAll env p.data = .error msg → tryBody env p = .error msg)
    ∧ (env.lookup p.solver = .ok () → env.mkInstance p.model = .ok () →
        bindAll env p.data = .ok () →
        env.solve (solveCallOf p) = .error msg → tryBody env p = .error msg)
    ∧ (∀ r, env.lookup p.solver = .ok () → env.mkInstance p.model = .ok () →
        bindAll env p.data = .ok () → env.solve (solveCallOf p) = .ok r →
        processOutcome p.all_solutions r = .error msg →
        tryBody env p = .error msg) := by
  refine ⟨?_, ?_, ?_, ?_, ?_, ?_⟩
  · intro h
    rw [core_of_tryBody_error env p msg h]
    rfl
  · intro h1
    unfold tryBody
    rw [h1]
  · intro h1 h2
    unfold tryBody
    rw [h1, h2]
  · intro h1 h2 h3
    unfold tryBody
    rw [h1, h2, h3]
  · intro h1 h2 h3 h4
    unfold tryBody
    rw [h1, h2, h3, h4]
  · intro r h1 h2 h3 h4 h5
    unfold tryBody
    rw [h1, h2, h3, h4]
    exact h5

/-- C1 witness: a failing solver lookup on a concrete request yields
exactly the uniform error result carrying the lookup's message. -/
theorem C1_error_boundary_witness :
    envLookupFail.lookup pBase.solver = .error "no solver with tag foo found"
    ∧ solve_constraint_core envLookupFail pBase =
        { solutions := [], status := "ERROR", solve_time := 0,
          num_solutions := 0, error := some "no solver with tag foo found" } := by
  refine ⟨rfl, ?_⟩
  have h := C1_error_boundary envLookupFail pBase "no solver with tag foo found"
  exact h.1 (h.2.1 rfl)

/-- C5: every returned `SolveResult` satisfies
`num_solutions == len(solutions)`, on the success path and on the error
path alike. -/
theorem C5_num_solutions_invariant (env : Env) (p : ConstraintModel) :
    (solve_constraint_core env p).num_solutions =
      (solve_constraint_core env p).solutions.length := by
  rcases core_shape env p with ⟨msg, hc⟩ | ⟨r, sols, t, _, _, _, hc⟩
  · rw [hc]
    rfl
  · rw [hc]

/-- C2 counterexample: the engine's own status vocabulary contains
`Status.ERROR`, whose literal representation is the string `"ERROR"`; a
successful outcome carrying it passes through the normalizer and yields
`status = "ERROR"` with `error` absent, refuting the claimed equivalence
(status `"ERROR"` iff `error` present and non-empty) and the claim that
`"ERROR"` is produced only by the normalizer's failure path. -/
theorem C2_error_iff_counterexample :
    (solve_constraint_core (mkOkEnv rErrStatus) pBase).status = "ERROR"
    ∧ (solve_constraint_core (mkOkEnv rErrStatus) pBase).error = none :=
  ⟨rfl, rfl⟩

/-- C2 (amended): the failure path always sets `error` (so a present
`error` forces status `"ERROR"`, and any other status has `error` absent),
but status `"ERROR"` with `error` absent is also reachable — exactly when
the engine itself reported the status value `Status.ERROR`, which passes
through as its literal representation. -/
theorem C2_amended_error_channel (env : Env) (p : ConstraintModel) :
    ((solve_constraint_core env p).error ≠ none →
      (solve_constraint_core env p).status = "ERROR")
    ∧ ((solve_constraint_core env p).status ≠ "ERROR" →
      (solve_constraint_core env p).error = none)
    ∧ ((solve_constraint_core env p).status = "ERROR" →
      (solve_constraint_core env p).error = none →
      ∃ r, env.solve (solveCallOf p) = .ok r ∧ r.status = Status.ERROR) := by
  rcases core_shape env p with ⟨msg, hc⟩ | ⟨r, sols, t, hr, hs, ht, hc⟩
  · rw [hc]
    refine ⟨fun _ => rfl, fun hne => absurd rfl hne, fun _ habs => ?_⟩
    simp only [errorResult] at habs
    exact Option.noConfusion habs
  · rw [hc]
    exact ⟨fun hne => absurd rfl hne, fun _ => rfl,
      fun hst _ => ⟨r, hr, statusStr_eq_err hst⟩⟩

/-- C2 witness: at the pass-through outcome the amended theorem's third
clause recovers the engine-side `Status.ERROR`. -/
theorem C2_amended_error_channel_witness :
    (solve_constraint_core (mkOkEnv rErrStatus) pBase).status = "ERROR"
    ∧ (solve_constraint_core (mkOkEnv rErrStatus) pBase).error = none
    ∧ ∃ r, (mkOkEnv rErrStatus).solve (solveCallOf pBase) = .ok r ∧
        r.status = Status.ERROR := by
  refine ⟨rfl, rfl, ?_⟩
  exact (C2_amended_error_channel (mkOkEnv rErrStatus) pBase).2.2 rfl rfl

/-- C3 counterexample: with `all_solutions=true`, an engine outcome whose
status is `OPTIMAL_SOLUTION` reaches the `elif` branch of line 92, which
ignores the enumeration flag and marks its single extracted solution
`is_optimal=true` — refuting the claim that in enumeration mode every
contained solution has `is_optimal == false` whatever the status. -/
theorem C3_enumeration_counterexample :
    pEnum.all_solutions = true
    ∧ (solve_constraint_core (mkOkEnv rOpt) pEnum).solutions.map
        Solution.is_optimal = [true] :=
  ⟨rfl, rfl⟩

/-- C3 (amended): with `all_solutions=true`, every solution contained in
the returned result has `is_optimal == false` — provided the result's
status is not `"OPTIMAL_SOLUTION"`; an engine status of `OPTIMAL_SOLUTION`
overrides the enumeration flag and marks its single solution optimal. -/
theorem C3_amended_enumeration_not_optimal (env : Env) (p : ConstraintModel)
    (s : Solution) (_h1 : p.all_solutions = true)
    (h2 : s ∈ (solve_constraint_core env p).solutions)
    (h3 : (solve_constraint_core env p).status ≠ "OPTIMAL_SOLUTION") :
    s.is_optimal = false := by
  rcases core_shape env p with ⟨msg, hc⟩ | ⟨r, sols, t, hr, hs, ht, hc⟩
  · rw [hc] at h2
    simp only [errorResult] at h2
    exact absurd h2 (List.not_mem_nil s)
  · rw [hc] at h2 h3
    have hst : r.status ≠ Status.OPTIMAL_SOLUTION := by
      intro he
      refine h3 ?_
      rw [he]
      rfl
    exact extract_not_opt_false p.all_solutions r sols hst hs s h2

/-- C3 witness: a two-solution enumeration outcome, where the amended
theorem applies to the first contained solution. -/
theorem C3_amended_enumeration_witness :
    pEnum.all_solutions = true
    ∧ sEnum1 ∈ (solve_constraint_core (mkOkEnv rEnum) pEnum).solutions
    ∧ (solve_constraint_core (mkOkEnv rEnum) pEnum).status ≠ "OPTIMAL_SOLUTION"
    ∧ sEnum1.is_optimal = false := by
  have hsols : (solve_constraint_core (mkOkEnv rEnum) pEnum).solutions =
      [sEnum1, { vars := [("x", Value.vint 2)], objective := none,
                 is_optimal := false }] := rfl
  refine ⟨rfl, ?_, by decide, ?_⟩
  · rw [hsols]
    exact List.mem_cons_self _ _
  · exact C3_amended_enumeration_not_optimal (mkOkEnv rEnum) pEnum sEnum1
      rfl (by rw [hsols]; exact List.mem_cons_self _ _) (by decide)

/-- C4: whenever the returned result's status is `"OPTIMAL_SOLUTION"`, its
solutions list has exactly one entry and that entry has
`is_optimal == true`. -/
theorem C4_optimal_single_solution (env : Env) (p : ConstraintModel)
    (h : (solve_constraint_core env p).status = "OPTIMAL_SOLUTION") :
    ∃ s, (solve_constraint_core env p).solutions = [s] ∧
      s.is_optimal = true :=
  core_opt_inv env p h

/-- C4 witness: a concrete proven-optimal outcome. -/
theorem C4_optimal_single_solution_witness :
    (solve_constraint_core (mkOkEnv rOpt) pBase).status = "OPTIMAL_SOLUTION"
    ∧ ∃ s, (solve_constraint_core (mkOkEnv rOpt) pBase).solutions = [s] ∧
        s.is_optimal = true :=
  ⟨rfl, C4_optimal_single_solution (mkOkEnv rOpt) pBase rfl⟩

/-- C6: on a processed outcome the status mapping is total — the returned
status is the engine status value's literal representation (`statusStr`,
defined for every member of the engine's enumeration) — and for every
engine status other than `SATISFIED`, `ALL_SOLUTIONS` and
`OPTIMAL_SOLUTION` (`UNSATISFIABLE`, `UNKNOWN`, or a value outside the
canonical set such as `UNBOUNDED` or `ERROR`) the result has zero
solutions, the status string passed through unchanged, and no error
field. -/
theorem C6_total_status_passthrough (env : Env) (p : ConstraintModel)
    (r : RawResult) (res : SolveResult)
    (h1 : env.lookup p.solver = .ok ()) (h2 : env.mkInstance p.model = .ok ())
    (h3 : bindAll env p.data = .ok ()) (h4 : env.solve (solveCallOf p) = .ok r)
    (h5 : processOutcome p.all_solutions r = .ok res) :
    solve_constraint_core env p = res
    ∧ res.status = statusStr r.status
    ∧ (r.status ≠ Status.SATISFIED → r.status ≠ Status.ALL_SOLUTIONS →
        r.status ≠ Status.OPTIMAL_SOLUTION →
        res.solutions = [] ∧ res.error = none) := by
  have hcore : solve_constraint_core env p = res := by
    refine core_of_tryBody_ok env p res ?_
    unfold tryBody
    rw [h1, h2, h3, h4]
    exact h5
  obtain ⟨sols, t, hs, ht, hres⟩ := processOutcome_ok_inv _ _ _ h5
  subst hres
  refine ⟨hcore, rfl, fun n1 n2 n3 => ?_⟩
  have hnil := extract_other_nil p.all_solutions r sols n1 n2 n3 hs
  subst hnil
  exact ⟨rfl, rfl⟩

/-- C6 witness: the engine status `UNBOUNDED`, outside the canonical set,
passes through literally with zero solutions and no error. -/
theorem C6_total_status_passthrough_witness :
    processOutcome pBase.all_solutions rUnb = .ok resUnb
    ∧ (solve_constraint_core (mkOkEnv rUnb) pBase = resUnb
      ∧ resUnb.status = statusStr rUnb.status
      ∧ (rUnb.status ≠ Status.SATISFIED → rUnb.status ≠ Status.ALL_SOLUTIONS →
          rUnb.status ≠ Status.OPTIMAL_SOLUTION →
          resUnb.solutions = [] ∧ resUnb.error = none)) := by
  refine ⟨rfl, ?_⟩
  exact C6_total_status_passthrough (mkOkEnv rUnb) pBase rUnb resUnb
    rfl rfl rfl rfl rfl

/-- C7 counterexample: the statistics translation copies the engine's
reported duration without clamping, so a successful outcome whose
`solveTime` statistic is the numeric value `-1` yields a returned
`solve_time` of `-1`, refuting the claimed unconditional non-negativity. -/
theorem C7_negative_solve_time_counterexample :
    (solve_constraint_core (mkOkEnv rNegTime) pBase).status = "UNKNOWN"
    ∧ (solve_constraint_core (mkOkEnv rNegTime) pBase).solve_time = -1
    ∧ ¬(0 ≤ (solve_constraint_core (mkOkEnv rNegTime) pBase).solve_time) :=
  ⟨rfl, rfl, by decide⟩

/-- C7 (amended): absence of the `solveTime` key yields `0.0` and never a
failure, a structured duration converts via its total-seconds value, an
already-numeric value is cast; the returned `solve_time` is non-negative
provided every `solveTime` duration the engine reports is non-negative
(the translation copies the value, so negativity can only come from the
engine). -/
theorem C7_amended_solve_time (env : Env) (p : ConstraintModel) :
    ((∀ r, env.solve (solveCallOf p) = .ok r →
        ∀ v, r.statistics.lookup "solveTime" = some v → statNonneg v) →
      0 ≤ (solve_constraint_core env p).solve_time)
    ∧ ∀ stats : List (String × StatValue),
        (stats.lookup "solveTime" = none → translateStats stats = .ok 0)
        ∧ (∀ q, stats.lookup "solveTime" = some (StatValue.timedelta q) →
            translateStats stats = .ok q)
        ∧ (∀ q, stats.lookup "solveTime" = some (StatValue.num q) →
            translateStats stats = .ok q) := by
  constructor
  · intro hwell
    rcases core_shape env p with ⟨msg, hc⟩ | ⟨r, sols, t, hr, hs, ht, hc⟩
    · rw [hc]
      exact le_refl 0
    · rw [hc]
      show (0 : Rat) ≤ t
      have hv := hwell r hr
      unfold translateStats at ht
      cases hlk : r.statistics.lookup "solveTime" with
      | none =>
        rw [hlk] at ht
        rw [← Except.ok.inj ht]
      | some v =>
        rw [hlk] at ht
        have hn := hv v hlk
        cases v with
        | timedelta q => rw [← Except.ok.inj ht]; exact hn
        | num q => rw [← Except.ok.inj ht]; exact hn
        | nonNumeric q => exact Except.noConfusion ht
  · intro stats
    refine ⟨fun h => ?_, fun q h => ?_, fun q h => ?_⟩
    · unfold translateStats
      rw [h]
    · unfold translateStats
      rw [h]
      rfl
    · unfold translateStats
      rw [h]
      rfl

/-- C7 witness: a concrete outcome with a non-negative structured duration
in its statistics yields a non-negative returned `solve_time`. -/
theorem C7_amended_solve_time_witness :
    0 ≤ (solve_constraint_core (mkOkEnv rStats) pBase).solve_time
    ∧ translateStats rStats.statistics = .ok 2 := by
  constructor
  · apply (C7_amended_solve_time (mkOkEnv rStats) pBase).1
    intro r hr v hv
    have hrr : rStats = r := Except.ok.inj hr
    subst hrr
    have h0 : rStats.statistics.lookup "solveTime" =
        some (StatValue.timedelta 2) := rfl
    rw [h0] at hv
    rw [← Option.some.inj hv]
    show (0 : Rat) ≤ 2
    norm_num
  · rfl

/-- C8: because line 57 tests the truthiness of `problem.timeout` rather
than its presence, a request with `timeout=0` is treated exactly like one
with `timeout=None` — the engine is invoked with no time limit and the
whole call computes the same result — while a negative timeout is truthy
and is forwarded to the engine as a negative time limit. -/
theorem C8_timeout_truthiness (env : Env) (m : String)
    (d : Option (List (String × Value))) (s : String) (a : Bool) :
    solve_constraint_core env
        { model := m, data := d, solver := s, all_solutions := a,
          timeout := some 0 }
      = solve_constraint_core env
        { model := m, data := d, solver := s, all_solutions := a,
          timeout := none }
    ∧ (solveCallOf { model := m, data := d, solver := s, all_solutions := a, timeout := some 0 }).time_limit = none
    ∧ ∀ t : Int, t < 0 →
        (solveCallOf { model := m, data := d, solver := s, all_solutions := a, timeout := some t }).time_limit = some t := by
  refine ⟨rfl, rfl, fun t ht => ?_⟩
  have hne : (t != 0) = true := by
    simp only [bne_iff_ne, ne_eq]
    exact ht.ne
  simp only [solveCallOf, truthyTimeout, hne, if_true]

/-- C8 witness: the negative-timeout clause at `timeout = -5`. -/
theorem C8_timeout_truthiness_witness :
    ((-5 : Int) < 0)
    ∧ (solveCallOf { model := "m", data := none, solver := "gecode", all_solutions := false, timeout := some (-5) }).time_limit = some (-5) := by
  refine ⟨by decide, ?_⟩
  exact (C8_timeout_truthiness envLookupFail "m" none "gecode" false).2.2
    (-5) (by decide)

/-- C9: a `SATISFIED` (or `ALL_SOLUTIONS`) outcome with no solution record
(`result.solution` falsy, and the outcome falsy in enumeration mode)
produces a non-error result with that status and zero solutions — a
`SATISFIED` status does not guarantee `num_solutions >= 1`. -/
theorem C9_satisfied_without_solutions (env : Env) (p : ConstraintModel)
    (r : RawResult) (t : Rat)
    (h1 : env.lookup p.solver = .ok ()) (h2 : env.mkInstance p.model = .ok ())
    (h3 : bindAll env p.data = .ok ()) (h4 : env.solve (solveCallOf p) = .ok r)
    (h5 : r.status = Status.SATISFIED ∨ r.status = Status.ALL_SOLUTIONS)
    (h6 : r.solution = none)
    (h7 : (p.all_solutions && r.truthy) = false)
    (h8 : translateStats r.statistics = .ok t) :
    solve_constraint_core env p =
      { solutions := [], status := statusStr r.status, solve_time := t,
        num_solutions := 0, error := none } := by
  have hex : extractSolutions p.all_solutions r = .ok [] := by
    unfold extractSolutions
    rw [if_pos h5, if_neg (by simp [h7]), h6]
  refine core_of_tryBody_ok env p _ ?_
  unfold tryBody
  rw [h1, h2, h3, h4]
  show processOutcome p.all_solutions r = _
  unfold processOutcome
  rw [hex, h8]
  rfl

/-- C9 witness: a bare `SATISFIED` outcome with no solution record. -/
theorem C9_satisfied_without_solutions_witness :
    rSatEmpty.status = Status.SATISFIED ∧ rSatEmpty.solution = none
    ∧ solve_constraint_core (mkOkEnv rSatEmpty) pBase =
        { solutions := [], status := "SATISFIED", solve_time := 0,
          num_solutions := 0, error := none } := by
  refine ⟨rfl, rfl, ?_⟩
  exact C9_satisfied_without_solutions (mkOkEnv rSatEmpty) pBase rSatEmpty 0
    rfl rfl rfl rfl (Or.inl rfl) rfl rfl rfl

/-- C10: an `OPTIMAL_SOLUTION` outcome whose solution record is missing
makes the unguarded `result.solution.__dict__` access raise, so the whole
call degrades atomically to the uniform error result; and the core never
returns a result with status `"OPTIMAL_SOLUTION"` and zero solutions. -/
theorem C10_optimal_missing_record :
    (∀ (env : Env) (p : ConstraintModel) (r : RawResult),
      env.lookup p.solver = .ok () → env.mkInstance p.model = .ok () →
      bindAll env p.data = .ok () → env.solve (solveCallOf p) = .ok r →
      r.status = Status.OPTIMAL_SOLUTION → r.solution = none →
      solve_constraint_core env p =
        { solutions := [], status := "ERROR", solve_time := 0,
          num_solutions := 0, error := some noneDictMsg })
    ∧ ∀ (env : Env) (p : ConstraintModel),
        (solve_constraint_core env p).status = "OPTIMAL_SOLUTION" →
        (solve_constraint_core env p).solutions ≠ [] := by
  constructor
  · intro env p r h1 h2 h3 h4 h5 h6
    have hex : extractSolutions p.all_solutions r = .error noneDictMsg := by
      unfold extractSolutions
      rw [if_neg (by rw [h5]; decide), if_pos h5, h6]
    have hbody : tryBody env p = .error noneDictMsg := by
      unfold tryBody
      rw [h1, h2, h3, h4]
      show processOutcome p.all_solutions r = _
      unfold processOutcome
      rw [hex]
    rw [core_of_tryBody_error env p _ hbody]
    rfl
  · intro env p h
    obtain ⟨s, hs, _⟩ := core_opt_inv env p h
    rw [hs]
    simp

/-- C10 witness: a concrete `OPTIMAL_SOLUTION` outcome with `solution =
None` yields exactly the uniform error result with the attribute-error
message. -/
theorem C10_optimal_missing_record_witness :
    rOptNone.status = Status.OPTIMAL_SOLUTION ∧ rOptNone.solution = none
    ∧ solve_constraint_core (mkOkEnv rOptNone) pBase =
        { solutions := [], status := "ERROR", solve_time := 0,
          num_solutions := 0, error := some noneDictMsg } := by
  refine ⟨rfl, rfl, ?_⟩
  exact C10_optimal_missing_record.1 (mkOkEnv rOptNone) pBase rOptNone
    rfl rfl rfl rfl rfl rfl
